import Mathlib

/-!
Shallow embedding of the order-processing pipeline
(`src/handlers/order_processor.py`, `src/handlers/stripe_webhook.py`,
`src/handlers/email_processor.py`, `src/utils/stripe_helpers.py`).

Modelling conventions:
* Python dict messages are embedded as structures with `Option` fields;
  `dict.get(k)` returning `None` is `none`, and Python truthiness of a
  string/number field is made explicit (`strTruthy`, `intTruthy`).
* The DynamoDB table (external collaborator) is an association list from
  partition key `order_id` to an item, itself an association list of
  attributes.  `put_item` replaces the whole item; `update_item` follows
  DynamoDB's documented upsert semantics: a `SET` update against a missing
  key creates a new item holding the key attribute plus the SET attributes.
* `datetime.utcnow().isoformat()` is an explicit `now : String` parameter
  of each invocation; `time.time()` is an explicit `now : Int`.
* HMAC-SHA256 (external `hmac`/`hashlib` libraries) is an explicit
  function parameter `hmacHex : Chars → Chars → Chars` mapping the secret
  and the signed payload to a hex digest; Python `str` values flowing
  through the signature verifier are modelled as `List Char` so that the
  `split` operations of the source are structurally recursive.
* Raised-and-caught exceptions become `Option`/explicit flags: a record
  whose JSON body fails to parse is `body = none`; a failing secrets
  fetch is `secretOk = false` / `secrets = none`.
-/

/-- Python truthiness of an optional string (`None` and `""` are falsy). -/
def strTruthy : Option String → Bool
  | some s => !(s == "")
  | none => false

/-- Python truthiness of an optional integer (`None` and `0` are falsy). -/
def intTruthy : Option Int → Bool
  | some n => !(n == 0)
  | none => false

/-- Python `a or b` on two optional strings: `a` when truthy, else `b`. -/
def pyOr (a b : Option String) : Option String :=
  match a with
  | some s => if s = "" then b else some s
  | none => b

/-- DynamoDB attribute value: string, number (`Decimal` over integer minor
units), or a map (metadata, with string entries). -/
inductive AttrVal where
  | s (v : String)
  | n (v : Int)
  | m (v : List (String × String))

deriving instance DecidableEq for AttrVal

/-- A DynamoDB item: attribute name ↦ value, as an association list. -/
def Item := List (String × AttrVal)

deriving instance DecidableEq for Item

/-- The orders table: partition key `order_id` ↦ item. -/
def Table := List (String × Item)

deriving instance DecidableEq for Table

/-- Attribute lookup in an item. -/
def itemGet : Item → String → Option AttrVal
  | [], _ => none
  | (k', v) :: rest, k => if k' = k then some v else itemGet rest k

/-- A `SET` of one attribute: replace in place, or append when absent. -/
def itemSet : Item → String → AttrVal → Item
  | [], k, v => [(k, v)]
  | (k', v') :: rest, k, v =>
    if k' = k then (k, v) :: rest else (k', v') :: itemSet rest k v

/-- Apply a list of `SET` clauses left to right. -/
def itemSets (it : Item) (sets : List (String × AttrVal)) : Item :=
  sets.foldl (fun acc kv => itemSet acc kv.1 kv.2) it

/-- Key lookup in the table. -/
def tableGet : Table → String → Option Item
  | [], _ => none
  | (k', it) :: rest, k => if k' = k then some it else tableGet rest k

/-- Model of `put_item`: replace the item under the key, or append when absent. -/
def tableSet : Table → String → Item → Table
  | [], k, it => [(k, it)]
  | (k', it') :: rest, k, it =>
    if k' = k then (k, it) :: rest else (k', it') :: tableSet rest k it

/-- Model of `update_item` with a `SET` expression: DynamoDB upsert semantics — when
the key is absent a fresh item holding only the key attribute is created
before the `SET` clauses are applied. -/
def tableUpdate (t : Table) (k : String) (sets : List (String × AttrVal)) : Table :=
  match tableGet t k with
  | some it => tableSet t k (itemSets it sets)
  | none => tableSet t k (itemSets [("order_id", AttrVal.s k)] sets)

/-- Number of bindings of a key in the table (1 for a well-formed table
holding the key). -/
def keyCount (t : Table) (k : String) : Nat :=
  (t.filter fun p => p.1 == k).length

/-- The `order_created` message payload (fields read by the handlers). -/
structure OrderCreatedMsg where
  session_id : Option String
  payment_intent_id : Option String
  customer_id : Option String
  customer_email : Option String
  amount_total : Option Int
  currency : Option String
  metadata : Option (List (String × String))
  timestamp : Option Int

deriving instance DecidableEq for OrderCreatedMsg

/-- The `payment_confirmed` message payload. -/
structure PaymentConfirmedMsg where
  payment_intent_id : Option String
  amount : Option Int
  currency : Option String
  customer_id : Option String
  customer_email : Option String
  metadata : Option (List (String × String))
  timestamp : Option Int

deriving instance DecidableEq for PaymentConfirmedMsg

/-- The `order_updated` message payload. -/
structure OrderUpdatedMsg where
  invoice_id : Option String
  customer_id : Option String
  subscription_id : Option String
  amount_paid : Option Int
  currency : Option String
  timestamp : Option Int

deriving instance DecidableEq for OrderUpdatedMsg

/-- The order item written by `process_order_created`
(`order_processor.py` lines 47-60), with both `utcnow()` calls modelled as
the single invocation time `now`. -/
def orderItem (now : String) (oid : String) (msg : OrderCreatedMsg) : Item :=
  [("order_id", AttrVal.s oid),
   ("customer_id", AttrVal.s (msg.customer_id.getD "unknown")),
   ("customer_email", AttrVal.s (msg.customer_email.getD "")),
   ("amount_total", AttrVal.n (msg.amount_total.getD 0)),
   ("currency", AttrVal.s (msg.currency.getD "usd")),
   ("payment_intent_id", AttrVal.s (msg.payment_intent_id.getD "")),
   ("session_id", AttrVal.s (msg.session_id.getD "")),
   ("status", AttrVal.s "created"),
   ("created_at", AttrVal.s now),
   ("updated_at", AttrVal.s now),
   ("metadata", AttrVal.m (msg.metadata.getD [])),
   ("stripe_timestamp", AttrVal.n (msg.timestamp.getD 0))]

/-- Embedding of `process_order_created` (`order_processor.py` lines 34-73): keyed by
`session_id or payment_intent_id`; missing/empty identifier fails the
item; otherwise `put_item` upserts the full record and the call succeeds. -/
def process_order_created (now : String) (msg : OrderCreatedMsg) (table : Table) :
    Bool × Table :=
  match pyOr msg.session_id msg.payment_intent_id with
  | none => (false, table)
  | some oid =>
    if oid = "" then (false, table)
    else (true, tableSet table oid (orderItem now oid msg))

/-- The `SET` clauses of `process_payment_confirmed`'s `update_item`. -/
def paymentUpdateSets (now : String) : List (String × AttrVal) :=
  [("status", AttrVal.s "payment_confirmed"),
   ("updated_at", AttrVal.s now),
   ("payment_confirmed_at", AttrVal.s now)]

/-- Embedding of `process_payment_confirmed` (`order_processor.py` lines 75-106): keyed
by `payment_intent_id`; the unconditional `update_item` upserts and the
call reports success. -/
def process_payment_confirmed (now : String) (msg : PaymentConfirmedMsg) (table : Table) :
    Bool × Table :=
  match msg.payment_intent_id with
  | none => (false, table)
  | some pid =>
    if pid = "" then (false, table)
    else (true, tableUpdate table pid (paymentUpdateSets now))

/-- The `SET` clauses built by `process_order_updated` (`order_processor.py`
lines 120-129): `updated_at` always; `subscription_id`/`amount_paid` only
when the message field is truthy. -/
def orderUpdateSets (now : String) (msg : OrderUpdatedMsg) : List (String × AttrVal) :=
  [("updated_at", AttrVal.s now)]
    ++ (if strTruthy msg.subscription_id then
          [("subscription_id", AttrVal.s (msg.subscription_id.getD ""))]
        else [])
    ++ (if intTruthy msg.amount_paid then
          [("amount_paid", AttrVal.n (msg.amount_paid.getD 0))]
        else [])

/-- Embedding of `process_order_updated` (`order_processor.py` lines 108-145): keyed by
`invoice_id`; the unconditional `update_item` upserts. -/
def process_order_updated (now : String) (msg : OrderUpdatedMsg) (table : Table) :
    Bool × Table :=
  match msg.invoice_id with
  | none => (false, table)
  | some oid =>
    if oid = "" then (false, table)
    else (true, tableUpdate table oid (orderUpdateSets now msg))

/-- A parsed queue message after the optional SNS unwrap, dispatched on its
`event_type` field (`other` covers unknown or missing event types). -/
inductive CanonicalMsg where
  | orderCreated (m : OrderCreatedMsg)
  | paymentConfirmed (m : PaymentConfirmedMsg)
  | orderUpdated (m : OrderUpdatedMsg)
  | other (event_type : Option String)

deriving instance DecidableEq for CanonicalMsg

/-- One SQS record: `body = none` models a record whose JSON body (or SNS
inner message) fails to parse, raising inside the per-record `try`. -/
structure SqsRecord where
  messageId : String
  body : Option CanonicalMsg

deriving instance DecidableEq for SqsRecord

/-- Per-record step of the order processor's batch loop
(`order_processor.py` lines 163-197): parse failure fails the item,
unknown event types succeed as explicit no-ops. -/
def processRecord (now : String) (table : Table) (r : SqsRecord) : Bool × Table :=
  match r.body with
  | none => (false, table)
  | some (CanonicalMsg.orderCreated m) => process_order_created now m table
  | some (CanonicalMsg.paymentConfirmed m) => process_payment_confirmed now m table
  | some (CanonicalMsg.orderUpdated m) => process_order_updated now m table
  | some (CanonicalMsg.other _) => (true, table)

/-- The batch loop: returns `(processed_count, failed_count, table)`. -/
def runBatch (now : String) (table : Table) (records : List SqsRecord) :
    Nat × Nat × Table :=
  records.foldl
    (fun acc r =>
      let pr := processRecord now acc.2.2 r
      if pr.1 then (acc.1 + 1, acc.2.1, pr.2) else (acc.1, acc.2.1 + 1, pr.2))
    (0, 0, table)

/-- The failure report built at `order_processor.py` lines 208-213: the
Python slice `[-failed_count:]` of the list of ALL record messageIds,
i.e. the last `failed_count` identifiers regardless of which items failed. -/
def batchItemFailuresReported (records : List SqsRecord) (failed : Nat) : List String :=
  (records.map fun r => r.messageId).drop (records.length - failed)

/-- Embedding of `order_processor.handler` (lines 147-227): runs the batch loop, then
returns the failure report (empty when nothing failed, standing for the
`{'statusCode': 200}` branch), paired with the final table state.
Nothing fallible runs before the per-record loop, so the outer
`except` branch (report every item) is unreachable here. -/
def order_handler (now : String) (table : Table) (records : List SqsRecord) :
    List String × Table :=
  let res := runBatch now table records
  if res.2.1 > 0 then (batchItemFailuresReported records res.2.1, res.2.2)
  else ([], res.2.2)

/-- Embedding of `send_order_confirmation_email` (`email_processor.py` lines 38-110):
fails without a truthy customer email, otherwise the outcome is the SES
send (modelled by `sesSend` on the recipient). -/
def send_order_confirmation_email (sesSend : String → Bool) (msg : OrderCreatedMsg) :
    Bool :=
  match msg.customer_email with
  | none => false
  | some e => if e = "" then false else sesSend e

/-- Embedding of `send_payment_confirmation_email` (`email_processor.py` lines 112-187):
a missing customer email is treated as success (deliberately not retried). -/
def send_payment_confirmation_email (sesSend : String → Bool) (msg : PaymentConfirmedMsg) :
    Bool :=
  match msg.customer_email with
  | none => true
  | some e => if e = "" then true else sesSend e

/-- Per-record step of the email processor's batch loop
(`email_processor.py` lines 207-246). -/
def email_processRecord (sesSend : String → Bool) (r : SqsRecord) : Bool :=
  match r.body with
  | none => false
  | some (CanonicalMsg.orderCreated m) => send_order_confirmation_email sesSend m
  | some (CanonicalMsg.paymentConfirmed m) => send_payment_confirmation_email sesSend m
  | some (CanonicalMsg.orderUpdated _) => true
  | some (CanonicalMsg.other _) => true

/-- Embedding of `email_processor.handler` (lines 189-274): the secrets fetch runs
before the per-record loop; when it raises (`secretOk = false`) the outer
`except` reports every record's messageId as failed.  Otherwise the
per-item loop runs and the same `[-failed_count:]` slice builds the
report. -/
def email_handler (secretOk : Bool) (sesSend : String → Bool)
    (records : List SqsRecord) : List String :=
  if secretOk then
    let failed := (records.filter fun r => !(email_processRecord sesSend r)).length
    if failed > 0 then batchItemFailuresReported records failed else []
  else
    records.map fun r => r.messageId

/-! ### Signature verifier (`src/utils/stripe_helpers.py`) -/

/-- Python `str` contents for the verifier, as a character list. -/
abbrev Chars := List Char

/-- Python `str.split(sep)` on a single-character separator. -/
def splitOnChar (sep : Char) : Chars → List Chars
  | [] => [[]]
  | c :: rest =>
    if c = sep then [] :: splitOnChar sep rest
    else
      match splitOnChar sep rest with
      | [] => [[c]]
      | g :: gs => (c :: g) :: gs

/-- Python `element.split('=', 1)` followed by the two-way unpacking: the
part before the first `'='` and everything after it; `none` when there is
no `'='` (the unpacking would raise `ValueError`). -/
def splitEqChars : Chars → Option (Chars × Chars)
  | [] => none
  | c :: rest =>
    if c = '=' then some ([], rest)
    else
      match splitEqChars rest with
      | none => none
      | some kv => some (c :: kv.1, kv.2)

/-- Value of a nonempty all-digit string, `none` otherwise. -/
def digitsVal (cs : Chars) : Option Nat :=
  if cs = [] then none
  else
    cs.foldl
      (fun acc c =>
        match acc with
        | none => none
        | some n => if c.isDigit then some (n * 10 + (c.toNat - 48)) else none)
      (some 0)

/-- Python `int(value)`: optional sign then digits; `none` models the
`ValueError` on anything else. -/
def parseIntChars : Chars → Option Int
  | '-' :: rest => (digitsVal rest).map fun n => -(n : Int)
  | '+' :: rest => (digitsVal rest).map fun n => (n : Int)
  | cs => (digitsVal cs).map fun n => (n : Int)

/-- The header-parsing loop of `verify_stripe_webhook_signature`
(`stripe_helpers.py` lines 31-41): split on `','`, split each element once
on `'='`; `t=` sets the timestamp via `int(...)`, keys starting with `v`
collect signature candidates, other keys are skipped.  `none` models a
raised `ValueError` (element without `'='`, or non-integer timestamp),
which the enclosing `except` turns into `False`. -/
def parseHeader (header : Chars) : Option (Option Int × List Chars) :=
  (splitOnChar ',' header).foldl
    (fun acc el =>
      match acc with
      | none => none
      | some (ts, sigs) =>
        match splitEqChars el with
        | none => none
        | some (k, v) =>
          if k = ['t'] then
            match parseIntChars v with
            | none => none
            | some n => some (some n, sigs)
          else if k.head? = some 'v' then some (ts, sigs ++ [v])
          else some (ts, sigs))
    (some (none, []))

/-- Decimal rendering of the parsed timestamp, as used by
`f"{timestamp}.{payload}"`. -/
def intChars (t : Int) : Chars := (toString t).data

/-- The signed payload `f"{timestamp}.{payload}"`. -/
def signedPayload (t : Int) (payload : Chars) : Chars :=
  intChars t ++ '.' :: payload

/-- Embedding of `verify_stripe_webhook_signature` (`stripe_helpers.py` lines 7-75),
parametrized by the external `hmacHex secret message` digest function and
the current time `now` (`time.time()`).  All raised errors inside the
source's `try` are already folded into `parseHeader`'s `none`; a missing
timestamp or empty candidate list raises `ValueError`, caught by the same
`except` into `False`.  `hmac.compare_digest` is equality (its
constant-time execution has no functional content). -/
def verify_stripe_webhook_signature (hmacHex : Chars → Chars → Chars) (now : Int)
    (payload header secret : Chars) (tolerance : Int) : Bool :=
  match parseHeader header with
  | none => false
  | some (none, _) => false
  | some (some ts, sigs) =>
    if sigs.isEmpty then false
    else if (Int.natAbs (now - ts) : Int) > tolerance then false
    else sigs.any fun s => hmacHex secret (signedPayload ts payload) == s

/-! ### Webhook ingress (`src/handlers/stripe_webhook.py`) -/

/-- Embedding of `verify_stripe_signature` (`stripe_webhook.py` lines 21-45): the
stubbed-out verification, which returns `True` for every input. -/
def verify_stripe_signature (payload signature webhook_secret : String) : Bool :=
  true

/-- The fields of the parsed Stripe event JSON that the webhook handler
reads (`stripe_event.get('type')`, `data.object.*`, `created`). -/
structure StripeEventParsed where
  type : String
  created : Option Int
  objId : Option String
  objPaymentIntent : Option String
  objCustomer : Option String
  objCustomerEmail : Option String
  objAmountTotal : Option Int
  objAmount : Option Int
  objCurrency : Option String
  objSubscription : Option String
  objAmountPaid : Option Int
  objMetadata : List (String × String)

deriving instance DecidableEq for StripeEventParsed

/-- Embedding of `stripe_webhook.handler` (lines 70-193), returning the HTTP status
code and the list of messages successfully published to SNS.
`jsonParse` stands for `json.loads` on the body, `secrets` for the
Secrets Manager fetch (`none` = raises, caught by the outer `except`
into a 500), `publishOk` for the outcome of `sns_client.publish`. -/
def stripe_webhook_handler (jsonParse : String → Option StripeEventParsed)
    (secrets : Option String) (publishOk : Bool)
    (body : String) (stripeSignature : String) : Nat × List CanonicalMsg :=
  if stripeSignature = "" then (400, [])
  else
    match secrets with
    | none => (500, [])
    | some whsec =>
      if verify_stripe_signature body stripeSignature whsec = false then (401, [])
      else
        match jsonParse body with
        | none => (400, [])
        | some ev =>
          if ev.type = "payment_intent.succeeded" then
            let msg := CanonicalMsg.paymentConfirmed
              { payment_intent_id := ev.objId
                amount := ev.objAmount
                currency := ev.objCurrency
                customer_id := ev.objCustomer
                customer_email := none
                metadata := some ev.objMetadata
                timestamp := ev.created }
            if publishOk then (200, [msg]) else (500, [])
          else if ev.type = "checkout.session.completed" then
            let msg := CanonicalMsg.orderCreated
              { session_id := ev.objId
                payment_intent_id := ev.objPaymentIntent
                customer_id := ev.objCustomer
                customer_email := ev.objCustomerEmail
                amount_total := ev.objAmountTotal
                currency := ev.objCurrency
                metadata := some ev.objMetadata
                timestamp := ev.created }
            if publishOk then (200, [msg]) else (500, [])
          else if ev.type = "invoice.payment_succeeded" then
            let msg := CanonicalMsg.orderUpdated
              { invoice_id := ev.objId
                customer_id := ev.objCustomer
                subscription_id := ev.objSubscription
                amount_paid := ev.objAmountPaid
                currency := ev.objCurrency
                timestamp := ev.created }
            if publishOk then (200, [msg]) else (500, [])
          else (200, [])

/-! ### Concrete inputs used by the claim theorems -/

/-- A well-formed two-element Stripe signature header
`t=<tStr>,v1=<sig>`. -/
def headerOf (tStr sig : Chars) : Chars :=
  't' :: '=' :: tStr ++ ',' :: 'v' :: '1' :: '=' :: sig

/-- An `order_created` message with the end-to-end payload shape, keyed by
the given session id (`none` gives a message whose handler fails for lack
of any identifier). -/
def c1Msg (sid : Option String) : OrderCreatedMsg :=
  { session_id := sid
    payment_intent_id := none
    customer_id := some "cu_1"
    customer_email := some "a@b.com"
    amount_total := some 2500
    currency := some "usd"
    metadata := some []
    timestamp := some 1 }

/-- A batch of five queued envelopes in which only item 3's handler fails
(its message carries no order identifier). -/
def c1Records : List SqsRecord :=
  [⟨"m1", some (CanonicalMsg.orderCreated (c1Msg (some "cs1")))⟩,
   ⟨"m2", some (CanonicalMsg.orderCreated (c1Msg (some "cs2")))⟩,
   ⟨"m3", some (CanonicalMsg.orderCreated (c1Msg none))⟩,
   ⟨"m4", some (CanonicalMsg.orderCreated (c1Msg (some "cs4")))⟩,
   ⟨"m5", some (CanonicalMsg.orderCreated (c1Msg (some "cs5")))⟩]

/-- A parsed `payment_intent.succeeded` Stripe event body. -/
def c2Event : StripeEventParsed :=
  { type := "payment_intent.succeeded"
    created := some 111
    objId := some "pi_1"
    objPaymentIntent := none
    objCustomer := some "cu_1"
    objCustomerEmail := none
    objAmountTotal := none
    objAmount := some 500
    objCurrency := some "usd"
    objSubscription := none
    objAmountPaid := none
    objMetadata := [] }

/-- A `payment_confirmed` message whose payment intent matches no order. -/
def c3Msg : PaymentConfirmedMsg :=
  { payment_intent_id := some "pi_9"
    amount := some 500
    currency := some "usd"
    customer_id := some "cu_1"
    customer_email := none
    metadata := some []
    timestamp := some 1 }

/-- An `order_created` canonical event carrying a session identifier. -/
def c4Msg : OrderCreatedMsg :=
  { session_id := some "cs_1"
    payment_intent_id := some "pi_1"
    customer_id := some "cu_1"
    customer_email := some "a@b.com"
    amount_total := some 2500
    currency := some "usd"
    metadata := some []
    timestamp := some 1 }

/-- An `order_updated` message whose `amount_paid` is present with value 0. -/
def c5Msg : OrderUpdatedMsg :=
  { invoice_id := some "in_1"
    customer_id := some "cu_1"
    subscription_id := none
    amount_paid := some 0
    currency := some "usd"
    timestamp := some 1 }

/-- The stored record for invoice `in_1` before the update. -/
def c5Item : Item :=
  [("order_id", AttrVal.s "in_1"), ("amount_paid", AttrVal.n 555)]

/-! ### Association-list lemmas for the store model -/

theorem tableGet_tableSet_self (t : Table) (k : String) (it : Item) :
    tableGet (tableSet t k it) k = some it := by
  induction t with
  | nil => simp [tableSet, tableGet]
  | cons p rest ih =>
    obtain ⟨k', it'⟩ := p
    by_cases h : k' = k <;> simp [tableSet, tableGet, h, ih]

theorem tableGet_tableSet_ne (t : Table) (k k' : String) (it : Item) (h : k' ≠ k) :
    tableGet (tableSet t k it) k' = tableGet t k' := by
  induction t with
  | nil => simp [tableSet, tableGet, Ne.symm h]
  | cons p rest ih =>
    obtain ⟨k'', it''⟩ := p
    by_cases hk : k'' = k
    · subst hk
      simp [tableSet, tableGet, Ne.symm h]
    · simp [tableSet, tableGet, hk, ih]

theorem tableSet_tableSet (t : Table) (k : String) (a b : Item) :
    tableSet (tableSet t k a) k b = tableSet t k b := by
  induction t with
  | nil => simp [tableSet]
  | cons p rest ih =>
    obtain ⟨k', it'⟩ := p
    by_cases h : k' = k <;> simp [tableSet, h, ih]

theorem keyCount_nil (k : String) : keyCount [] k = 0 := rfl

theorem keyCount_cons (k' : String) (it' : Item) (rest : Table) (k : String) :
    keyCount ((k', it') :: rest) k = (if k' = k then 1 else 0) + keyCount rest k := by
  by_cases h : k' = k
  · simp [keyCount, List.filter_cons, h]
    omega
  · simp [keyCount, List.filter_cons, h]

theorem keyCount_tableSet (t : Table) (k : String) (it : Item)
    (h : keyCount t k ≤ 1) : keyCount (tableSet t k it) k = 1 := by
  induction t with
  | nil => simp [tableSet, keyCount_cons, keyCount_nil]
  | cons p rest ih =>
    obtain ⟨k', it'⟩ := p
    rw [keyCount_cons] at h
    by_cases hk : k' = k
    · rw [if_pos hk] at h
      have h0 : keyCount rest k = 0 := by omega
      simp [tableSet, hk, keyCount_cons, h0]
    · have hrest : keyCount rest k ≤ 1 := by simpa [hk] using h
      simp [tableSet, hk, keyCount_cons, ih hrest]

theorem itemGet_itemSet_self (it : Item) (k : String) (v : AttrVal) :
    itemGet (itemSet it k v) k = some v := by
  induction it with
  | nil => simp [itemSet, itemGet]
  | cons p rest ih =>
    obtain ⟨k', v'⟩ := p
    by_cases h : k' = k <;> simp [itemSet, itemGet, h, ih]

theorem itemGet_itemSet_ne (it : Item) (k k' : String) (v : AttrVal) (h : k' ≠ k) :
    itemGet (itemSet it k v) k' = itemGet it k' := by
  induction it with
  | nil => simp [itemSet, itemGet, Ne.symm h]
  | cons p rest ih =>
    obtain ⟨k'', v''⟩ := p
    by_cases hk : k'' = k
    · subst hk
      simp [itemSet, itemGet, Ne.symm h]
    · simp [itemSet, itemGet, hk, ih]

/-! ### Header-parsing lemmas for the signature verifier -/

theorem splitOnChar_not_mem (sep : Char) (xs : Chars) (h : sep ∉ xs) :
    splitOnChar sep xs = [xs] := by
  induction xs with
  | nil => rfl
  | cons c rest ih =>
    have hc : ¬ c = sep := by rintro rfl; exact h (List.mem_cons_self _ _)
    have hr : sep ∉ rest := fun hm => h (List.mem_cons_of_mem _ hm)
    simp [splitOnChar, hc, ih hr]

theorem splitOnChar_append_cons (sep : Char) (xs ys : Chars) (h : sep ∉ xs) :
    splitOnChar sep (xs ++ sep :: ys) = xs :: splitOnChar sep ys := by
  induction xs with
  | nil => simp [splitOnChar]
  | cons c rest ih =>
    have hc : ¬ c = sep := by rintro rfl; exact h (List.mem_cons_self _ _)
    have hr : sep ∉ rest := fun hm => h (List.mem_cons_of_mem _ hm)
    simp [splitOnChar, hc, ih hr]

theorem splitEqChars_t (v : Chars) :
    splitEqChars ('t' :: '=' :: v) = some (['t'], v) := by
  simp [splitEqChars]

theorem splitEqChars_v1 (v : Chars) :
    splitEqChars ('v' :: '1' :: '=' :: v) = some (['v', '1'], v) := by
  simp [splitEqChars]

theorem parseHeader_headerOf (t : Int) (tStr sig : Chars)
    (hp : parseIntChars tStr = some t) (h1 : ',' ∉ tStr) (h2 : ',' ∉ sig) :
    parseHeader (headerOf tStr sig) = some (some t, [sig]) := by
  have hx : ',' ∉ ('t' :: '=' :: tStr) := by
    simp only [List.mem_cons, not_or]
    exact ⟨by decide, by decide, h1⟩
  have hy : ',' ∉ ('v' :: '1' :: '=' :: sig) := by
    simp only [List.mem_cons, not_or]
    exact ⟨by decide, by decide, by decide, h2⟩
  have hsplit : splitOnChar ',' (headerOf tStr sig)
      = ('t' :: '=' :: tStr) :: ('v' :: '1' :: '=' :: sig) :: [] := by
    have : headerOf tStr sig
        = ('t' :: '=' :: tStr) ++ ',' :: ('v' :: '1' :: '=' :: sig) := rfl
    rw [this, splitOnChar_append_cons _ _ _ hx, splitOnChar_not_mem _ _ hy]
  rw [parseHeader, hsplit]
  simp [List.foldl, splitEqChars_t, splitEqChars_v1, hp]

/-! ### Claim C6 -/

/-- C6: for every payload and secret, `verify` returns true when invoked
with a signature header carrying a current timestamp `t` and a `v1`
candidate equal to the digest of the secret over `"t.payload"`, and
returns false whenever the candidate differs from the digest of the
(possibly altered) payload — in particular when any byte of the payload
or of the candidate has been changed, since the digest then no longer
matches (HMAC-SHA256 is the abstract parameter `hmacHex`; a byte flip
changing the digest is the standard collision-freeness reading). -/
theorem verify_accepts_correct_signature_rejects_mismatch
    (hmacHex : Chars → Chars → Chars) (now t : Int) (payload secret tStr sig : Chars)
    (hp : parseIntChars tStr = some t) (h1 : ',' ∉ tStr) (h2 : ',' ∉ sig)
    (hfresh : Int.natAbs (now - t) ≤ 300) :
    (sig = hmacHex secret (signedPayload t payload) →
       verify_stripe_webhook_signature hmacHex now payload (headerOf tStr sig) secret 300
         = true)
    ∧ (sig ≠ hmacHex secret (signedPayload t payload) →
       verify_stripe_webhook_signature hmacHex now payload (headerOf tStr sig) secret 300
         = false) := by
  have hparse := parseHeader_headerOf t tStr sig hp h1 h2
  have htol : ¬ (300 < |now - t|) := by
    rw [Int.abs_eq_natAbs]
    omega
  constructor
  · intro hs
    subst hs
    simp [verify_stripe_webhook_signature, hparse, htol]
  · intro hs
    simp [verify_stripe_webhook_signature, hparse, htol]
    exact fun hh => hs hh.symm

/-- Witness for C6 at a concrete input: the correctly computed candidate
is accepted, and altering the payload (so the digest no longer matches
the candidate) is rejected. -/
theorem verify_accepts_correct_signature_rejects_mismatch_witness :
    parseIntChars "1000".data = some 1000 ∧
    Int.natAbs (1000 - 1000) ≤ 300 ∧
    verify_stripe_webhook_signature (fun s m => s ++ m) 1000 "p".data
      (headerOf "1000".data "k1000.p".data) "k".data 300 = true ∧
    verify_stripe_webhook_signature (fun s m => s ++ m) 1000 "q".data
      (headerOf "1000".data "k1000.p".data) "k".data 300 = false :=
  ⟨by decide, by decide,
   (verify_accepts_correct_signature_rejects_mismatch (fun s m => s ++ m) 1000 1000
      "p".data "k".data "1000".data "k1000.p".data
      (by decide) (by decide) (by decide) (by decide)).1 (by decide),
   (verify_accepts_correct_signature_rejects_mismatch (fun s m => s ++ m) 1000 1000
      "q".data "k".data "1000".data "k1000.p".data
      (by decide) (by decide) (by decide) (by decide)).2 (by decide)⟩

/-! ### Claim C7 -/

/-- C7: whenever the parsed header carries timestamp `t`, `verify` returns
false when `|now - t|` exceeds the tolerance 300, and at `|now - t| = 300`
the freshness check passes (boundary inclusive): the result is exactly the
signature-comparison outcome. -/
theorem verify_tolerance_boundary
    (hmacHex : Chars → Chars → Chars) (now t : Int)
    (payload secret header : Chars) (sigs : List Chars)
    (hparse : parseHeader header = some (some t, sigs)) :
    (300 < Int.natAbs (now - t) →
       verify_stripe_webhook_signature hmacHex now payload header secret 300 = false)
    ∧ (Int.natAbs (now - t) = 300 →
       verify_stripe_webhook_signature hmacHex now payload header secret 300
         = sigs.any fun s => hmacHex secret (signedPayload t payload) == s) := by
  constructor
  · intro hgt
    have hc : 300 < |now - t| := by
      rw [Int.abs_eq_natAbs]
      omega
    simp [verify_stripe_webhook_signature, hparse, hc]
  · intro heq
    have hc : ¬ (300 < |now - t|) := by
      rw [Int.abs_eq_natAbs]
      omega
    by_cases hnil : sigs = []
    · simp [verify_stripe_webhook_signature, hparse, hnil]
    · simp [verify_stripe_webhook_signature, hparse, hnil, hc]

/-- Witness for C7: with header `t=100,v1=k100.`, secret `k` and the
stand-in digest function, `now = 401` (gap 301) is rejected while
`now = 400` (gap exactly 300) passes freshness and accepts the matching
candidate. -/
theorem verify_tolerance_boundary_witness :
    parseHeader "t=100,v1=k100.".data = some (some 100, ["k100.".data]) ∧
    verify_stripe_webhook_signature (fun s m => s ++ m) 401 [] "t=100,v1=k100.".data
      "k".data 300 = false ∧
    verify_stripe_webhook_signature (fun s m => s ++ m) 400 [] "t=100,v1=k100.".data
      "k".data 300 = true :=
  ⟨by decide,
   (verify_tolerance_boundary (fun s m => s ++ m) 401 100 [] "k".data
      "t=100,v1=k100.".data ["k100.".data] (by decide)).1 (by decide),
   ((verify_tolerance_boundary (fun s m => s ++ m) 400 100 [] "k".data
      "t=100,v1=k100.".data ["k100.".data] (by decide)).2 (by decide)).trans (by decide)⟩

/-! ### Claim C8 -/

/-- C8: a malformed signature header fails closed — whether header parsing
raises (an element without `=`, a non-integer timestamp), the `t=` field
is absent, or there are zero `v<N>` candidates, `verify` returns false and
never true (the raised `ValueError`s of the source are caught by its own
`except` and turned into `False`). -/
theorem verify_malformed_header_fails_closed
    (hmacHex : Chars → Chars → Chars) (now : Int)
    (payload secret header : Chars) (tolerance : Int) :
    (parseHeader header = none →
       verify_stripe_webhook_signature hmacHex now payload header secret tolerance
         = false)
    ∧ (∀ sigs, parseHeader header = some (none, sigs) →
       verify_stripe_webhook_signature hmacHex now payload header secret tolerance
         = false)
    ∧ (∀ t, parseHeader header = some (some t, []) →
       verify_stripe_webhook_signature hmacHex now payload header secret tolerance
         = false) := by
  refine ⟨fun h => ?_, fun sigs h => ?_, fun t h => ?_⟩
  · simp [verify_stripe_webhook_signature, h]
  · simp [verify_stripe_webhook_signature, h]
  · simp [verify_stripe_webhook_signature, h]

/-- Witness for C8 on three concrete malformed headers: no `=` in an
element, a header with candidates but no `t=` field, and a header with a
timestamp but zero candidates. -/
theorem verify_malformed_header_fails_closed_witness :
    parseHeader "garbage".data = none ∧
    parseHeader "v1=ab".data = some (none, ["ab".data]) ∧
    parseHeader "t=5".data = some (some 5, []) ∧
    verify_stripe_webhook_signature (fun s m => s ++ m) 0 [] "garbage".data [] 300
      = false ∧
    verify_stripe_webhook_signature (fun s m => s ++ m) 0 [] "v1=ab".data [] 300
      = false ∧
    verify_stripe_webhook_signature (fun s m => s ++ m) 0 [] "t=5".data [] 300
      = false :=
  ⟨by decide, by decide, by decide,
   (verify_malformed_header_fails_closed (fun s m => s ++ m) 0 [] [] "garbage".data
      300).1 (by decide),
   (verify_malformed_header_fails_closed (fun s m => s ++ m) 0 [] [] "v1=ab".data
      300).2.1 ["ab".data] (by decide),
   (verify_malformed_header_fails_closed (fun s m => s ++ m) 0 [] [] "t=5".data
      300).2.2 5 (by decide)⟩

/-! ### Claim C1 -/

/-- C1 fails on the code: in a batch of five items where only item 3's
handler fails, the failure report is `["m5"]` — the `[-failed_count:]`
slice of ALL messageIds takes the last one, not the failed one — while
items 1, 2, 4, 5 did apply their effects.  Item `m5` succeeded yet is
reported for redelivery, and failed item `m3` is not reported at all. -/
theorem orderHandler_misreports_failed_items :
    (processRecord "T" [] ⟨"m3", some (CanonicalMsg.orderCreated (c1Msg none))⟩).1
      = false ∧
    (runBatch "T" [] c1Records).1 = 4 ∧
    (runBatch "T" [] c1Records).2.1 = 1 ∧
    (order_handler "T" [] c1Records).1 = ["m5"] ∧
    ¬ (order_handler "T" [] c1Records).1 = ["m3"] ∧
    (tableGet (order_handler "T" [] c1Records).2 "cs1").isSome = true ∧
    (tableGet (order_handler "T" [] c1Records).2 "cs2").isSome = true ∧
    (tableGet (order_handler "T" [] c1Records).2 "cs4").isSome = true ∧
    (tableGet (order_handler "T" [] c1Records).2 "cs5").isSome = true := by
  decide

/-! ### Claim C2 -/

/-- C2 fails on the code: `verify_stripe_signature` is a stub returning
`True` for every input, so a request whose signature header `"garbage"`
matches no HMAC whatsoever (the real verifier of `stripe_helpers.py`
rejects it for any digest function, shown here for a stand-in digest) is
accepted: the ingress handler publishes the event and answers 200, never
401. -/
theorem webhook_signature_bypass_accepts_invalid :
    verify_stripe_signature "rawbody" "garbage" "whsec_1" = true ∧
    verify_stripe_webhook_signature (fun s m => s ++ m) 111 "rawbody".data
      "garbage".data "whsec_1".data 300 = false ∧
    (stripe_webhook_handler (fun _ => some c2Event) (some "whsec_1") true
      "rawbody" "garbage").1 = 200 ∧
    (stripe_webhook_handler (fun _ => some c2Event) (some "whsec_1") true
      "rawbody" "garbage").2
      = [CanonicalMsg.paymentConfirmed
          { payment_intent_id := some "pi_1"
            amount := some 500
            currency := some "usd"
            customer_id := some "cu_1"
            customer_email := none
            metadata := some []
            timestamp := some 111 }] := by
  decide

/-! ### Claim C9 -/

/-- C9: when batch setup fails before per-item dispatch begins — the
secrets fetch of `email_processor.handler` raises (`secretOk = false`) —
the outer `except` reports every item of the batch as failed, whatever
the records and the notifier outcome, so the transport redelivers the
whole batch. -/
theorem email_handler_secret_failure_fails_whole_batch
    (sesSend : String → Bool) (records : List SqsRecord) :
    email_handler false sesSend records = records.map fun r => r.messageId := by
  simp [email_handler]

/-! ### Claim C3 -/

/-- C3 fails on the code: against an empty store, the handler's
unconditional `update_item` CREATES a record under the unmatched
`payment_intent_id` (DynamoDB upsert) and the handler returns success, so
the item is not reported for redelivery. -/
theorem paymentConfirmed_missing_order_creates_record :
    tableGet ([] : Table) "pi_9" = none ∧
    (process_payment_confirmed "T" c3Msg []).1 = true ∧
    tableGet (process_payment_confirmed "T" c3Msg []).2 "pi_9"
      = some [("order_id", AttrVal.s "pi_9"),
              ("status", AttrVal.s "payment_confirmed"),
              ("updated_at", AttrVal.s "T"),
              ("payment_confirmed_at", AttrVal.s "T")] := by
  decide

/-- C3 amended: for every payment-confirmed message whose
`payment_intent_id` matches no existing record, the handler creates a
minimal placeholder record under that key — holding only the key, the
`payment_confirmed` status and the two timestamps — reports the item as
succeeded (no redelivery), and leaves every other key unchanged. -/
theorem paymentConfirmed_missing_order_upserts_placeholder
    (now : String) (msg : PaymentConfirmedMsg) (table : Table) (pid : String)
    (hpid : msg.payment_intent_id = some pid) (hne : pid ≠ "")
    (habsent : tableGet table pid = none) :
    (process_payment_confirmed now msg table).1 = true ∧
    tableGet (process_payment_confirmed now msg table).2 pid
      = some [("order_id", AttrVal.s pid),
              ("status", AttrVal.s "payment_confirmed"),
              ("updated_at", AttrVal.s now),
              ("payment_confirmed_at", AttrVal.s now)] ∧
    ∀ k, k ≠ pid →
      tableGet (process_payment_confirmed now msg table).2 k = tableGet table k := by
  have hstep : process_payment_confirmed now msg table
      = (true, tableSet table pid
          (itemSets [("order_id", AttrVal.s pid)] (paymentUpdateSets now))) := by
    simp [process_payment_confirmed, hpid, hne, tableUpdate, habsent]
  refine ⟨by simp [hstep], ?_, ?_⟩
  · rw [hstep]
    simp only []
    rw [tableGet_tableSet_self]
    rfl
  · intro k hk
    rw [hstep]
    simp only []
    exact tableGet_tableSet_ne table pid k _ hk

/-- Witness for C3's amended claim at a concrete input. -/
theorem paymentConfirmed_missing_order_upserts_placeholder_witness :
    tableGet ([("cs_0", [("order_id", AttrVal.s "cs_0")])] : Table) "pi_9" = none ∧
    tableGet (process_payment_confirmed "T" c3Msg
        [("cs_0", [("order_id", AttrVal.s "cs_0")])]).2 "pi_9"
      = some [("order_id", AttrVal.s "pi_9"),
              ("status", AttrVal.s "payment_confirmed"),
              ("updated_at", AttrVal.s "T"),
              ("payment_confirmed_at", AttrVal.s "T")] :=
  ⟨by decide,
   (paymentConfirmed_missing_order_upserts_placeholder "T" c3Msg
      [("cs_0", [("order_id", AttrVal.s "cs_0")])] "pi_9"
      (by decide) (by decide) (by decide)).2.1⟩

/-! ### Claim C4 -/

/-- C4 fails on the code as stated: re-applying the same `OrderCreated`
event at a later wall-clock time re-stamps `created_at` (and
`updated_at`), so the record's fields after the second application are
not identical to its fields after the first. -/
theorem orderCreated_reapply_changes_timestamps :
    itemGet ((tableGet (process_order_created "T1" c4Msg []).2 "cs_1").getD [])
        "created_at" = some (AttrVal.s "T1") ∧
    itemGet ((tableGet (process_order_created "T2" c4Msg
          (process_order_created "T1" c4Msg []).2).2 "cs_1").getD [])
        "created_at" = some (AttrVal.s "T2") ∧
    ¬ (AttrVal.s "T2") = (AttrVal.s "T1") := by
  decide

theorem orderItem_frame (now1 now2 oid : String) (msg : OrderCreatedMsg) (f : String)
    (hf1 : f ≠ "created_at") (hf2 : f ≠ "updated_at") :
    itemGet (orderItem now2 oid msg) f = itemGet (orderItem now1 oid msg) f := by
  have key : orderItem now2 oid msg
      = itemSet (itemSet (orderItem now1 oid msg) "created_at" (AttrVal.s now2))
          "updated_at" (AttrVal.s now2) := rfl
  rw [key, itemGet_itemSet_ne _ _ _ _ hf2, itemGet_itemSet_ne _ _ _ _ hf1]

/-- C4 amended: applying the same `OrderCreated` event twice yields
exactly one `OrderRecord` under its idempotency key — an overwrite, not
an error: both applications succeed —, every field except the re-stamped
`created_at`/`updated_at` is identical after the two applications, and
when both applications stamp the same time the store states coincide
exactly. -/
theorem orderCreated_upsert_idempotent_modulo_timestamps
    (now1 now2 : String) (msg : OrderCreatedMsg) (table : Table) (oid : String)
    (hoid : pyOr msg.session_id msg.payment_intent_id = some oid) (hne : oid ≠ "")
    (hwf : keyCount table oid ≤ 1) :
    (process_order_created now1 msg table).1 = true ∧
    (process_order_created now2 msg (process_order_created now1 msg table).2).1
      = true ∧
    keyCount (process_order_created now2 msg
        (process_order_created now1 msg table).2).2 oid = 1 ∧
    tableGet (process_order_created now1 msg table).2 oid
      = some (orderItem now1 oid msg) ∧
    tableGet (process_order_created now2 msg
        (process_order_created now1 msg table).2).2 oid
      = some (orderItem now2 oid msg) ∧
    (∀ f, f ≠ "created_at" → f ≠ "updated_at" →
       itemGet (orderItem now2 oid msg) f = itemGet (orderItem now1 oid msg) f) ∧
    (now1 = now2 →
       (process_order_created now2 msg (process_order_created now1 msg table).2).2
         = (process_order_created now1 msg table).2) := by
  have hstep1 : process_order_created now1 msg table
      = (true, tableSet table oid (orderItem now1 oid msg)) := by
    simp [process_order_created, hoid, hne]
  have hstep2 : process_order_created now2 msg (tableSet table oid (orderItem now1 oid msg))
      = (true, tableSet (tableSet table oid (orderItem now1 oid msg)) oid
          (orderItem now2 oid msg)) := by
    simp [process_order_created, hoid, hne]
  rw [hstep1]
  simp only [hstep2]
  refine ⟨trivial, trivial, ?_, tableGet_tableSet_self _ _ _,
    tableGet_tableSet_self _ _ _,
    fun f hf1 hf2 => orderItem_frame now1 now2 oid msg f hf1 hf2, ?_⟩
  · exact keyCount_tableSet _ _ _ (le_of_eq (keyCount_tableSet _ _ _ hwf))
  · intro hnow
    rw [hnow, tableSet_tableSet]

/-- Witness for C4's amended claim at a concrete input. -/
theorem orderCreated_upsert_idempotent_modulo_timestamps_witness :
    pyOr c4Msg.session_id c4Msg.payment_intent_id = some "cs_1" ∧
    keyCount ([] : Table) "cs_1" ≤ 1 ∧
    keyCount (process_order_created "T2" c4Msg
        (process_order_created "T1" c4Msg []).2).2 "cs_1" = 1 :=
  ⟨by decide, by decide,
   (orderCreated_upsert_idempotent_modulo_timestamps "T1" "T2" c4Msg [] "cs_1"
      (by decide) (by decide) (by decide)).2.2.1⟩

/-! ### Claim C5 -/

theorem updateSets_shape_tt (it : Item) (now : String) (msg : OrderUpdatedMsg)
    (hs : strTruthy msg.subscription_id = true) (ha : intTruthy msg.amount_paid = true) :
    itemSets it (orderUpdateSets now msg)
      = itemSet (itemSet (itemSet it "updated_at" (AttrVal.s now))
          "subscription_id" (AttrVal.s (msg.subscription_id.getD "")))
          "amount_paid" (AttrVal.n (msg.amount_paid.getD 0)) := by
  simp [orderUpdateSets, hs, ha, itemSets]

theorem updateSets_shape_tf (it : Item) (now : String) (msg : OrderUpdatedMsg)
    (hs : strTruthy msg.subscription_id = true) (ha : intTruthy msg.amount_paid = false) :
    itemSets it (orderUpdateSets now msg)
      = itemSet (itemSet it "updated_at" (AttrVal.s now))
          "subscription_id" (AttrVal.s (msg.subscription_id.getD "")) := by
  simp [orderUpdateSets, hs, ha, itemSets]

theorem updateSets_shape_ft (it : Item) (now : String) (msg : OrderUpdatedMsg)
    (hs : strTruthy msg.subscription_id = false) (ha : intTruthy msg.amount_paid = true) :
    itemSets it (orderUpdateSets now msg)
      = itemSet (itemSet it "updated_at" (AttrVal.s now))
          "amount_paid" (AttrVal.n (msg.amount_paid.getD 0)) := by
  simp [orderUpdateSets, hs, ha, itemSets]

theorem updateSets_shape_ff (it : Item) (now : String) (msg : OrderUpdatedMsg)
    (hs : strTruthy msg.subscription_id = false) (ha : intTruthy msg.amount_paid = false) :
    itemSets it (orderUpdateSets now msg)
      = itemSet it "updated_at" (AttrVal.s now) := by
  simp [orderUpdateSets, hs, ha, itemSets]

theorem updateSets_get_updated_at (it : Item) (now : String) (msg : OrderUpdatedMsg) :
    itemGet (itemSets it (orderUpdateSets now msg)) "updated_at"
      = some (AttrVal.s now) := by
  by_cases hs : strTruthy msg.subscription_id
  · by_cases ha : intTruthy msg.amount_paid
    · rw [updateSets_shape_tt it now msg hs (by simpa using ha),
        itemGet_itemSet_ne _ _ _ _ (by decide),
        itemGet_itemSet_ne _ _ _ _ (by decide), itemGet_itemSet_self]
    · rw [updateSets_shape_tf it now msg hs (by simpa using ha),
        itemGet_itemSet_ne _ _ _ _ (by decide), itemGet_itemSet_self]
  · by_cases ha : intTruthy msg.amount_paid
    · rw [updateSets_shape_ft it now msg (by simpa using hs) ha,
        itemGet_itemSet_ne _ _ _ _ (by decide), itemGet_itemSet_self]
    · rw [updateSets_shape_ff it now msg (by simpa using hs) (by simpa using ha),
        itemGet_itemSet_self]

theorem updateSets_get_subscription (it : Item) (now : String) (msg : OrderUpdatedMsg) :
    itemGet (itemSets it (orderUpdateSets now msg)) "subscription_id"
      = (if strTruthy msg.subscription_id
         then some (AttrVal.s (msg.subscription_id.getD ""))
         else itemGet it "subscription_id") := by
  by_cases hs : strTruthy msg.subscription_id
  · rw [if_pos hs]
    by_cases ha : intTruthy msg.amount_paid
    · rw [updateSets_shape_tt it now msg hs (by simpa using ha),
        itemGet_itemSet_ne _ _ _ _ (by decide), itemGet_itemSet_self]
    · rw [updateSets_shape_tf it now msg hs (by simpa using ha), itemGet_itemSet_self]
  · rw [if_neg hs]
    by_cases ha : intTruthy msg.amount_paid
    · rw [updateSets_shape_ft it now msg (by simpa using hs) ha,
        itemGet_itemSet_ne _ _ _ _ (by decide),
        itemGet_itemSet_ne _ _ _ _ (by decide)]
    · rw [updateSets_shape_ff it now msg (by simpa using hs) (by simpa using ha),
        itemGet_itemSet_ne _ _ _ _ (by decide)]

theorem updateSets_get_amount_paid (it : Item) (now : String) (msg : OrderUpdatedMsg) :
    itemGet (itemSets it (orderUpdateSets now msg)) "amount_paid"
      = (if intTruthy msg.amount_paid
         then some (AttrVal.n (msg.amount_paid.getD 0))
         else itemGet it "amount_paid") := by
  by_cases ha : intTruthy msg.amount_paid
  · rw [if_pos ha]
    by_cases hs : strTruthy msg.subscription_id
    · rw [updateSets_shape_tt it now msg hs ha, itemGet_itemSet_self]
    · rw [updateSets_shape_ft it now msg (by simpa using hs) ha, itemGet_itemSet_self]
  · rw [if_neg ha]
    by_cases hs : strTruthy msg.subscription_id
    · rw [updateSets_shape_tf it now msg hs (by simpa using ha),
        itemGet_itemSet_ne _ _ _ _ (by decide),
        itemGet_itemSet_ne _ _ _ _ (by decide)]
    · rw [updateSets_shape_ff it now msg (by simpa using hs) (by simpa using ha),
        itemGet_itemSet_ne _ _ _ _ (by decide)]

theorem updateSets_frame (it : Item) (now : String) (msg : OrderUpdatedMsg) (f : String)
    (hf1 : f ≠ "updated_at") (hf2 : f ≠ "subscription_id") (hf3 : f ≠ "amount_paid") :
    itemGet (itemSets it (orderUpdateSets now msg)) f = itemGet it f := by
  by_cases hs : strTruthy msg.subscription_id
  · by_cases ha : intTruthy msg.amount_paid
    · rw [updateSets_shape_tt it now msg hs (by simpa using ha),
        itemGet_itemSet_ne _ _ _ _ hf3, itemGet_itemSet_ne _ _ _ _ hf2,
        itemGet_itemSet_ne _ _ _ _ hf1]
    · rw [updateSets_shape_tf it now msg hs (by simpa using ha),
        itemGet_itemSet_ne _ _ _ _ hf2, itemGet_itemSet_ne _ _ _ _ hf1]
  · by_cases ha : intTruthy msg.amount_paid
    · rw [updateSets_shape_ft it now msg (by simpa using hs) ha,
        itemGet_itemSet_ne _ _ _ _ hf3, itemGet_itemSet_ne _ _ _ _ hf1]
    · rw [updateSets_shape_ff it now msg (by simpa using hs) (by simpa using ha),
        itemGet_itemSet_ne _ _ _ _ hf1]

/-- C5 fails on the code: `amount_paid` present with value 0 is NOT
written — the handler guards the `SET` with Python truthiness
(`if message_data.get('amount_paid'):`), which 0 fails — so the stored
`amount_paid` keeps its old value 555 while the update still succeeds and
refreshes `updated_at`. -/
theorem orderUpdated_zero_amount_paid_not_written :
    (process_order_updated "T" c5Msg [("in_1", c5Item)]).1 = true ∧
    itemGet ((tableGet (process_order_updated "T" c5Msg [("in_1", c5Item)]).2
        "in_1").getD []) "amount_paid" = some (AttrVal.n 555) ∧
    ¬ itemGet ((tableGet (process_order_updated "T" c5Msg [("in_1", c5Item)]).2
        "in_1").getD []) "amount_paid" = some (AttrVal.n 0) ∧
    itemGet ((tableGet (process_order_updated "T" c5Msg [("in_1", c5Item)]).2
        "in_1").getD []) "updated_at" = some (AttrVal.s "T") := by
  decide

/-- C5 amended: for every order-updated message carrying a truthy invoice
id and a record stored under it, the handler always refreshes
`updated_at`, sets `subscription_id`/`amount_paid` if and only if each is
present AND truthy on the message — in particular an `amount_paid`
present with value 0 (or an empty `subscription_id`) is NOT written —
and leaves every other attribute of the record, and every other key of
the store, unchanged. -/
theorem orderUpdated_truthy_conditional_update
    (now : String) (msg : OrderUpdatedMsg) (table : Table) (inv : String) (it : Item)
    (hinv : msg.invoice_id = some inv) (hne : inv ≠ "")
    (hit : tableGet table inv = some it) :
    (process_order_updated now msg table).1 = true ∧
    tableGet (process_order_updated now msg table).2 inv
      = some (itemSets it (orderUpdateSets now msg)) ∧
    itemGet (itemSets it (orderUpdateSets now msg)) "updated_at"
      = some (AttrVal.s now) ∧
    itemGet (itemSets it (orderUpdateSets now msg)) "subscription_id"
      = (if strTruthy msg.subscription_id
         then some (AttrVal.s (msg.subscription_id.getD ""))
         else itemGet it "subscription_id") ∧
    itemGet (itemSets it (orderUpdateSets now msg)) "amount_paid"
      = (if intTruthy msg.amount_paid
         then some (AttrVal.n (msg.amount_paid.getD 0))
         else itemGet it "amount_paid") ∧
    (∀ f, f ≠ "updated_at" → f ≠ "subscription_id" → f ≠ "amount_paid" →
       itemGet (itemSets it (orderUpdateSets now msg)) f = itemGet it f) ∧
    (∀ k, k ≠ inv →
       tableGet (process_order_updated now msg table).2 k = tableGet table k) := by
  have hstep : process_order_updated now msg table
      = (true, tableSet table inv (itemSets it (orderUpdateSets now msg))) := by
    simp [process_order_updated, hinv, hne, tableUpdate, hit]
  refine ⟨by simp [hstep], ?_, updateSets_get_updated_at it now msg,
    updateSets_get_subscription it now msg, updateSets_get_amount_paid it now msg,
    fun f hf1 hf2 hf3 => updateSets_frame it now msg f hf1 hf2 hf3, ?_⟩
  · rw [hstep]
    exact tableGet_tableSet_self _ _ _
  · intro k hk
    rw [hstep]
    exact tableGet_tableSet_ne _ _ _ _ hk

/-- Witness for C5's amended claim: with `amount_paid = 0` present and a
subscription id present and non-empty, `updated_at` is refreshed, the
subscription id is written, and the stored `amount_paid` stays 555. -/
theorem orderUpdated_truthy_conditional_update_witness :
    tableGet [("in_1", c5Item)] "in_1" = some c5Item ∧
    itemGet (itemSets c5Item (orderUpdateSets "T"
        { invoice_id := some "in_1"
          customer_id := some "cu_1"
          subscription_id := some "sub_1"
          amount_paid := some 0
          currency := some "usd"
          timestamp := some 1 })) "amount_paid" = some (AttrVal.n 555) :=
  ⟨by decide,
   ((orderUpdated_truthy_conditional_update "T"
      { invoice_id := some "in_1"
        customer_id := some "cu_1"
        subscription_id := some "sub_1"
        amount_paid := some 0
        currency := some "usd"
        timestamp := some 1 } [("in_1", c5Item)] "in_1" c5Item
      (by decide) (by decide) (by decide)).2.2.2.2.1).trans (by decide)⟩

/-! ### Claim C10 -/

/-- C10: when an order-created message carries both a session id and a
payment-intent id, its record is stored under the session id, while the
payment-confirmed handler for the same payment writes under the
payment-intent id; the session-keyed record is therefore untouched by the
payment confirmation and its status stays `created`. -/
theorem payment_confirmed_leaves_session_keyed_record
    (now1 now2 : String) (mc : OrderCreatedMsg) (mp : PaymentConfirmedMsg)
    (table : Table) (sid pid : String)
    (hsid : mc.session_id = some sid) (hsne : sid ≠ "")
    (hpid : mp.payment_intent_id = some pid) (hpne : pid ≠ "")
    (hsamepay : mc.payment_intent_id = some pid)
    (hdiff : sid ≠ pid) :
    tableGet (process_payment_confirmed now2 mp
        (process_order_created now1 mc table).2).2 sid
      = tableGet (process_order_created now1 mc table).2 sid ∧
    tableGet (process_order_created now1 mc table).2 sid
      = some (orderItem now1 sid mc) ∧
    itemGet (orderItem now1 sid mc) "status" = some (AttrVal.s "created") := by
  have hstep1 : process_order_created now1 mc table
      = (true, tableSet table sid (orderItem now1 sid mc)) := by
    simp [process_order_created, pyOr, hsid, hsne]
  have hget : tableGet (process_order_created now1 mc table).2 sid
      = some (orderItem now1 sid mc) := by
    rw [hstep1]
    exact tableGet_tableSet_self _ _ _
  refine ⟨?_, hget, rfl⟩
  have hstep2 : process_payment_confirmed now2 mp (process_order_created now1 mc table).2
      = (true, tableUpdate (process_order_created now1 mc table).2 pid
          (paymentUpdateSets now2)) := by
    simp [process_payment_confirmed, hpid, hpne]
  rw [hstep2]
  rcases hcase : tableGet (process_order_created now1 mc table).2 pid with _ | pitem
  · rw [tableUpdate, hcase]
    exact tableGet_tableSet_ne _ _ _ _ hdiff
  · rw [tableUpdate, hcase]
    exact tableGet_tableSet_ne _ _ _ _ hdiff

/-- Witness for C10 with the end-to-end payload of the spec's §8
(`session cs_1`, `payment intent pi_1`). -/
theorem payment_confirmed_leaves_session_keyed_record_witness :
    c4Msg.session_id = some "cs_1" ∧ c3Msg.payment_intent_id = some "pi_9" ∧
    tableGet (process_payment_confirmed "T2" c3Msg
        (process_order_created "T1" { c4Msg with payment_intent_id := some "pi_9" }
          []).2).2 "cs_1"
      = tableGet (process_order_created "T1"
          { c4Msg with payment_intent_id := some "pi_9" } []).2 "cs_1" :=
  ⟨by decide, by decide,
   (payment_confirmed_leaves_session_keyed_record "T1" "T2"
      { c4Msg with payment_intent_id := some "pi_9" } c3Msg [] "cs_1" "pi_9"
      (by decide) (by decide) (by decide) (by decide) (by decide) (by decide)).1⟩
